import Mathlib

/-
Verification of the OAuth2 Authorization-Code-with-PKCE coordinator found in
src/apps/consumer/src-tauri/src/lib.rs and src/apps/consumer/src-tauri/src/oauth.rs.

The Rust code is embedded shallowly:
- pure computations (token normalization, expiry check, URL suffixing,
  serde shape of TokenData) become Lean functions;
- the Tauri commands start_oauth / complete_oauth become explicit state
  transformers over the AppState record that the Rust code keeps behind
  per-field mutexes (each command holds the locks around whole reads and
  writes, so the sequential embedding captures all serialized behaviors);
- network calls (the oauth2 crate exchange and refresh requests) and the
  construction of OAuthClient (which can only fail on a malformed redirect
  URI) are abstracted as explicit parameters carrying their outcome;
- the random PKCE verifier and CSRF token produced by the oauth2 crate in
  get_authorization_url are abstracted as string parameters;
- clock reads (Utc::now().timestamp_millis()) are an explicit now parameter.

Rust Result<_, String> error returns of complete_oauth are refined into an
inductive with one constructor per distinct return site of the Rust function,
so that errors produced by different lines cannot be confused.
-/

namespace OwnYou

/-- Provider enumeration, oauth.rs lines 28 to 31. -/
inductive OAuthProvider where
  | Microsoft
  | Google
deriving Repr, DecidableEq

/-- Canonical token record, oauth.rs lines 36 to 42. expires_at is a Unix
timestamp in milliseconds (Rust i64, embedded as Int). -/
structure TokenData where
  access_token : String
  refresh_token : Option String
  expires_at : Int
  scope : String
  token_type : String
deriving Repr, DecidableEq

/-- The fields of the oauth2 crate token response that oauth.rs reads:
access_token().secret(), refresh_token(), expires_in() (a Duration, read via
as_secs, embedded as Option Nat), and scopes(). -/
structure TokenResponse where
  access_token : String
  refresh_token : Option String
  expires_in : Option Nat
  scopes : Option (List String)
deriving Repr, DecidableEq

/-- Application state held by Tauri, lib.rs lines 35 to 44: one PKCE verifier
slot and one CSRF state slot per provider. -/
structure AppState where
  microsoft_pkce_verifier : Option String
  google_pkce_verifier : Option String
  microsoft_csrf_state : Option String
  google_csrf_state : Option String
deriving Repr, DecidableEq

/-- Initial application state, lib.rs lines 240 to 245: every slot empty. -/
def AppState.empty : AppState :=
  { microsoft_pkce_verifier := none
    google_pkce_verifier := none
    microsoft_csrf_state := none
    google_csrf_state := none }

/-- Errors of complete_oauth, one constructor per distinct Err return site:
configError for OAuthClient::new failure (lib.rs line 118), csrfMismatch for
the string CSRF state mismatch - possible attack (line 113), missingVerifier
for No PKCE verifier found for Microsoft / Google (lines 125 and 129), and
exchangeError for an error propagated from exchange_code (line 138). -/
inductive OAuthErr where
  | configError (msg : String)
  | csrfMismatch
  | missingVerifier (provider : OAuthProvider)
  | exchangeError (msg : String)
deriving Repr, DecidableEq

/-- Reads the CSRF slot of a provider, the match at lib.rs lines 98 to 107. -/
def peek_csrf (provider : OAuthProvider) (st : AppState) : Option String :=
  match provider with
  | OAuthProvider.Microsoft => st.microsoft_csrf_state
  | OAuthProvider.Google => st.google_csrf_state

/-- Reads the verifier slot of a provider without consuming it. -/
def peek_verifier (provider : OAuthProvider) (st : AppState) : Option String :=
  match provider with
  | OAuthProvider.Microsoft => st.microsoft_pkce_verifier
  | OAuthProvider.Google => st.google_pkce_verifier

/-- Option::take on the verifier slot of a provider, lib.rs lines 122 to 131:
returns the stored value and leaves the slot empty. -/
def take_verifier (provider : OAuthProvider) (st : AppState) :
    Option String × AppState :=
  match provider with
  | OAuthProvider.Microsoft =>
      (st.microsoft_pkce_verifier, { st with microsoft_pkce_verifier := none })
  | OAuthProvider.Google =>
      (st.google_pkce_verifier, { st with google_pkce_verifier := none })

/-- Sets the CSRF slot of a provider to None, lib.rs lines 140 to 150. -/
def clear_csrf (provider : OAuthProvider) (st : AppState) : AppState :=
  match provider with
  | OAuthProvider.Microsoft => { st with microsoft_csrf_state := none }
  | OAuthProvider.Google => { st with google_csrf_state := none }

/-- State effect of a successful start_oauth, lib.rs lines 64 to 78: stores
the fresh PKCE verifier and CSRF token in the slots of the chosen provider,
overwriting whatever was there. The random pair produced by
get_authorization_url is passed in as the two string parameters. -/
def start_oauth (provider : OAuthProvider) (pkce_verifier csrf_token : String)
    (st : AppState) : AppState :=
  match provider with
  | OAuthProvider.Microsoft =>
      { st with microsoft_pkce_verifier := some pkce_verifier
                microsoft_csrf_state := some csrf_token }
  | OAuthProvider.Google =>
      { st with google_pkce_verifier := some pkce_verifier
                google_csrf_state := some csrf_token }

/-- Result record of complete_oauth: the returned Result, the application
state after the call, and whether control reached the token exchange at
lib.rs line 135. -/
structure CompleteOutcome where
  result : Except OAuthErr TokenData
  state : AppState
  exchange_attempted : Bool
deriving Repr

/-- lib.rs lines 118 to 153, the part of complete_oauth after the CSRF check:
OAuthClient::new (outcome abstracted as newResult), retrieval of the stored
PKCE verifier by Option::take, the awaited network exchange (abstracted as
the exchange parameter applied to the code and the taken verifier), and, only
after a successful exchange, the clearing of the CSRF slot. -/
def complete_rest (provider : OAuthProvider) (code : String)
    (newResult : Except String Unit)
    (exchange : String → String → Except String TokenData)
    (st : AppState) : CompleteOutcome :=
  match newResult with
  | Except.error e =>
      { result := Except.error (OAuthErr.configError e), state := st
        exchange_attempted := false }
  | Except.ok _ =>
      match take_verifier provider st with
      | (none, st1) =>
          { result := Except.error (OAuthErr.missingVerifier provider)
            state := st1, exchange_attempted := false }
      | (some v, st1) =>
          match exchange code v with
          | Except.error e =>
              { result := Except.error (OAuthErr.exchangeError e), state := st1
                exchange_attempted := true }
          | Except.ok token_data =>
              { result := Except.ok token_data
                state := clear_csrf provider st1, exchange_attempted := true }

/-- lib.rs lines 87 to 154, complete_oauth: clones the CSRF slot of the
provider as expected_state; when both a received and an expected state are
present and differ, returns the CSRF mismatch error at once, leaving the
state untouched; in every other case falls through to complete_rest. -/
def complete_oauth (provider : OAuthProvider) (code : String)
    (received_state : Option String) (newResult : Except String Unit)
    (exchange : String → String → Except String TokenData)
    (st : AppState) : CompleteOutcome :=
  let expected_state := peek_csrf provider st
  match received_state, expected_state with
  | some received, some expected =>
      if received = expected then
        complete_rest provider code newResult exchange st
      else
        { result := Except.error OAuthErr.csrfMismatch, state := st
          exchange_attempted := false }
  | _, _ => complete_rest provider code newResult exchange st

/-- oauth.rs lines 122 to 153, normalization of a successful code exchange
response into TokenData: refresh_token copied as is, expires_at computed as
now plus expires_in seconds (default 3600) times 1000, scopes joined with
spaces (empty string when absent), token_type the constant Bearer. -/
def exchange_code_normalize (resp : TokenResponse) (now : Int) : TokenData :=
  { access_token := resp.access_token
    refresh_token := resp.refresh_token
    expires_at := now + ((resp.expires_in.map fun s => (s : Int)).getD 3600) * 1000
    scope := (resp.scopes.map fun ss => String.intercalate " " ss).getD ""
    token_type := "Bearer" }

/-- oauth.rs lines 105 to 154, exchange_code with the network request
abstracted as its outcome: a transport or provider error is wrapped in the
Token exchange failed prefix (line 119); a response is normalized with the
clock read at line 132. -/
def exchange_code (requestResult : Except String TokenResponse) (now : Int) :
    Except String TokenData :=
  match requestResult with
  | Except.error e => Except.error ("Token exchange failed: " ++ e)
  | Except.ok resp => Except.ok (exchange_code_normalize resp now)

/-- oauth.rs lines 164 to 194, normalization of a refresh response: the new
refresh token is the provider supplied one when present, otherwise the old
one is carried forward (the or at line 168); the other fields are normalized
as in exchange_code_normalize. -/
def refresh_token_normalize (old_refresh_token : String) (resp : TokenResponse)
    (now : Int) : TokenData :=
  { access_token := resp.access_token
    refresh_token := Option.or resp.refresh_token (some old_refresh_token)
    expires_at := now + ((resp.expires_in.map fun s => (s : Int)).getD 3600) * 1000
    scope := (resp.scopes.map fun ss => String.intercalate " " ss).getD ""
    token_type := "Bearer" }

/-- oauth.rs lines 157 to 195, refresh_token with the network request
abstracted as its outcome: errors are propagated unchanged, a response is
normalized with refresh_token_normalize. -/
def OAuthClient.refresh_token (old_refresh_token : String)
    (requestResult : Except String TokenResponse) (now : Int) :
    Except String TokenData :=
  match requestResult with
  | Except.error e => Except.error e
  | Except.ok resp => Except.ok (refresh_token_normalize old_refresh_token resp now)

/-- oauth.rs lines 199 to 203, is_token_expired: true when expires_at is at
most now plus the five minute buffer. The clock read at line 200 is the now
parameter. -/
def is_token_expired (now : Int) (token_data : TokenData) : Bool :=
  let buffer : Int := 5 * 60 * 1000
  decide (token_data.expires_at ≤ now + buffer)

/-- oauth.rs lines 93 to 101 of get_authorization_url: the authorize URL
built by the external oauth2 crate (abstracted as base_url) is returned as
is, except that for Google the literal suffix
and-sign access_type=offline and-sign prompt=consent is appended. -/
def get_authorization_url (provider : OAuthProvider) (base_url : String) :
    String :=
  if provider = OAuthProvider.Google then
    base_url ++ "&access_type=offline&prompt=consent"
  else
    base_url

/-- Decides whether the second list occurs as a contiguous segment of the
first, used to state URL containment of query parameters. -/
def containsSeg (needle : List Char) : List Char → Bool
  | [] => needle.isPrefixOf ([] : List Char)
  | c :: t => needle.isPrefixOf (c :: t) || containsSeg needle t

/-- String containment: the needle occurs as a contiguous substring of the
haystack. -/
def strContains (hay needle : String) : Bool :=
  containsSeg needle.toList hay.toList

/-- JSON values, the target of serde_json serialization. TokenData only ever
serializes strings, a signed 64 bit integer and null, so numbers are embedded
as Int. -/
inductive Json where
  | null
  | bool (b : Bool)
  | num (n : Int)
  | str (s : String)
  | arr (elems : List Json)
  | obj (fields : List (String × Json))

/-- Serialization of TokenData as derived by serde with
rename_all = camelCase (oauth.rs lines 34 to 42): an object with the fields
in declaration order under their camelCase names; the Option field
refresh_token serializes None as null. -/
def TokenData.toJson (t : TokenData) : Json :=
  Json.obj
    [("accessToken", Json.str t.access_token),
     ("refreshToken",
       match t.refresh_token with
       | some r => Json.str r
       | none => Json.null),
     ("expiresAt", Json.num t.expires_at),
     ("scope", Json.str t.scope),
     ("tokenType", Json.str t.token_type)]

/-- Deserialization of TokenData as derived by serde with
rename_all = camelCase: fields are looked up by camelCase name in any order;
the four mandatory fields must be present with the right primitive type; the
Option field refreshToken gives None when absent or null, Some when a
string, and is a type error otherwise. -/
def TokenData.fromJson (j : Json) : Option TokenData :=
  match j with
  | Json.obj fields =>
      match List.lookup "accessToken" fields, List.lookup "expiresAt" fields,
            List.lookup "scope" fields, List.lookup "tokenType" fields with
      | some (Json.str access_token), some (Json.num expires_at),
        some (Json.str scope), some (Json.str token_type) =>
          match List.lookup "refreshToken" fields with
          | none =>
              some ⟨access_token, none, expires_at, scope, token_type⟩
          | some Json.null =>
              some ⟨access_token, none, expires_at, scope, token_type⟩
          | some (Json.str r) =>
              some ⟨access_token, some r, expires_at, scope, token_type⟩
          | some _ => none
      | _, _, _, _ => none
  | _ => none

/-- C5: is_token_expired returns true exactly when expires_at is at most the
clock reading plus 300000 milliseconds; a token expiring exactly five minutes
from now is reported expired, one expiring six minutes from now is not. -/
theorem C5_is_token_expired (now : Int) (t : TokenData) :
    is_token_expired now t = decide (t.expires_at ≤ now + 300000) ∧
    (∀ a r sc ty, is_token_expired now ⟨a, r, now + 5 * 60 * 1000, sc, ty⟩ = true) ∧
    (∀ a r sc ty, is_token_expired now ⟨a, r, now + 6 * 60 * 1000, sc, ty⟩ = false) := by
  refine ⟨rfl, fun a r sc ty => ?_, fun a r sc ty => ?_⟩
  · simp [is_token_expired]
  · simp [is_token_expired]

/-- C6: a successful refresh returns the normalized token, whose
refresh_token is the old one when the provider response omits a new refresh
token and the provider supplied one when present. -/
theorem C6_refresh_token_carry (old_refresh_token : String)
    (resp : TokenResponse) (now : Int) :
    OAuthClient.refresh_token old_refresh_token (Except.ok resp) now
      = Except.ok (refresh_token_normalize old_refresh_token resp now) ∧
    (resp.refresh_token = none →
      (refresh_token_normalize old_refresh_token resp now).refresh_token
        = some old_refresh_token) ∧
    (∀ r, resp.refresh_token = some r →
      (refresh_token_normalize old_refresh_token resp now).refresh_token
        = some r) := by
  refine ⟨rfl, fun h => ?_, fun r h => ?_⟩
  · simp [refresh_token_normalize, h, Option.or]
  · simp [refresh_token_normalize, h, Option.or]

/-- C6 witness: at a response omitting the refresh token, the normalized
refresh_token is the old one. -/
theorem C6_refresh_token_carry_witness :
    (refresh_token_normalize "old" ⟨"at", none, none, none⟩ 5).refresh_token
      = some "old" :=
  (C6_refresh_token_carry "old" ⟨"at", none, none, none⟩ 5).2.1 rfl

/-- C7: both normalizers compute expires_at as now plus expires_in seconds
times 1000, where expires_in defaults to 3600 when the provider omits it. -/
theorem C7_expires_at (resp : TokenResponse) (now : Int)
    (old_refresh_token : String) :
    (exchange_code_normalize resp now).expires_at
      = now + (match resp.expires_in with
               | some s => (s : Int)
               | none => 3600) * 1000 ∧
    (refresh_token_normalize old_refresh_token resp now).expires_at
      = now + (match resp.expires_in with
               | some s => (s : Int)
               | none => 3600) * 1000 := by
  rcases h : resp.expires_in with _ | s <;>
    simp [exchange_code_normalize, refresh_token_normalize, h]

/-- C9: deserializing the serialization of any TokenData value reproduces
every field exactly. -/
theorem C9_round_trip (t : TokenData) :
    TokenData.fromJson (TokenData.toJson t) = some t := by
  obtain ⟨a, r, e, sc, ty⟩ := t
  cases r <;> rfl

/-- C1: after start_oauth stores the state value s for provider P, a
complete_oauth call supplying a state s2 different from s fails with the
CSRF mismatch error and never reaches the token exchange, while a call
supplying exactly s passes the state check and reaches the exchange step. -/
theorem C1_state_check (st0 : AppState) (P : OAuthProvider)
    (v s s2 code : String)
    (exchange : String → String → Except String TokenData)
    (hne : s2 ≠ s) :
    (complete_oauth P code (some s2) (Except.ok ()) exchange
        (start_oauth P v s st0)).result = Except.error OAuthErr.csrfMismatch ∧
    (complete_oauth P code (some s2) (Except.ok ()) exchange
        (start_oauth P v s st0)).exchange_attempted = false ∧
    (complete_oauth P code (some s) (Except.ok ()) exchange
        (start_oauth P v s st0)).result ≠ Except.error OAuthErr.csrfMismatch ∧
    (complete_oauth P code (some s) (Except.ok ()) exchange
        (start_oauth P v s st0)).exchange_attempted = true := by
  cases P
  · refine ⟨?_, ?_, ?_, ?_⟩
    · simp [complete_oauth, peek_csrf, start_oauth, hne]
    · simp [complete_oauth, peek_csrf, start_oauth, hne]
    · rcases hx : exchange code v with e | td <;>
        simp [complete_oauth, complete_rest, peek_csrf, start_oauth,
          take_verifier, clear_csrf, hx]
    · rcases hx : exchange code v with e | td <;>
        simp [complete_oauth, complete_rest, peek_csrf, start_oauth,
          take_verifier, clear_csrf, hx]
  · refine ⟨?_, ?_, ?_, ?_⟩
    · simp [complete_oauth, peek_csrf, start_oauth, hne]
    · simp [complete_oauth, peek_csrf, start_oauth, hne]
    · rcases hx : exchange code v with e | td <;>
        simp [complete_oauth, complete_rest, peek_csrf, start_oauth,
          take_verifier, clear_csrf, hx]
    · rcases hx : exchange code v with e | td <;>
        simp [complete_oauth, complete_rest, peek_csrf, start_oauth,
          take_verifier, clear_csrf, hx]

/-- C1 witness: with state value s stored by start_oauth, supplying t fails
with the CSRF mismatch error without an exchange attempt, and supplying s
reaches the exchange. -/
theorem C1_state_check_witness :
    (complete_oauth OAuthProvider.Microsoft "c" (some "t") (Except.ok ())
        (fun _ _ => Except.ok ⟨"at", none, 0, "", "Bearer"⟩)
        (start_oauth OAuthProvider.Microsoft "v" "s" AppState.empty)).result
      = Except.error OAuthErr.csrfMismatch ∧
    (complete_oauth OAuthProvider.Microsoft "c" (some "t") (Except.ok ())
        (fun _ _ => Except.ok ⟨"at", none, 0, "", "Bearer"⟩)
        (start_oauth OAuthProvider.Microsoft "v" "s" AppState.empty)).exchange_attempted
      = false ∧
    (complete_oauth OAuthProvider.Microsoft "c" (some "s") (Except.ok ())
        (fun _ _ => Except.ok ⟨"at", none, 0, "", "Bearer"⟩)
        (start_oauth OAuthProvider.Microsoft "v" "s" AppState.empty)).result
      ≠ Except.error OAuthErr.csrfMismatch ∧
    (complete_oauth OAuthProvider.Microsoft "c" (some "s") (Except.ok ())
        (fun _ _ => Except.ok ⟨"at", none, 0, "", "Bearer"⟩)
        (start_oauth OAuthProvider.Microsoft "v" "s" AppState.empty)).exchange_attempted
      = true :=
  C1_state_check AppState.empty OAuthProvider.Microsoft "v" "s" "t" "c"
    (fun _ _ => Except.ok ⟨"at", none, 0, "", "Bearer"⟩) (by decide)

/-- C4: when the caller supplies no state value at all, the CSRF check is
skipped: the call never fails with the CSRF mismatch error, and when a
verifier is stored and the client constructs, it reaches the exchange
step. -/
theorem C4_no_state_skips_check (P : OAuthProvider) (code : String)
    (newResult : Except String Unit)
    (exchange : String → String → Except String TokenData)
    (st : AppState) (v : String)
    (hv : peek_verifier P st = some v) :
    (complete_oauth P code none newResult exchange st).result
      ≠ Except.error OAuthErr.csrfMismatch ∧
    (newResult = Except.ok () →
      (complete_oauth P code none newResult exchange st).exchange_attempted
        = true) := by
  cases P <;> simp only [peek_verifier] at hv
  · constructor
    · rcases newResult with ne | u
      · simp [complete_oauth, complete_rest, peek_csrf]
      · rcases hx : exchange code v with e | td <;>
          simp [complete_oauth, complete_rest, peek_csrf, take_verifier,
            clear_csrf, hv, hx]
    · rintro rfl
      rcases hx : exchange code v with e | td <;>
        simp [complete_oauth, complete_rest, peek_csrf, take_verifier,
          clear_csrf, hv, hx]
  · constructor
    · rcases newResult with ne | u
      · simp [complete_oauth, complete_rest, peek_csrf]
      · rcases hx : exchange code v with e | td <;>
          simp [complete_oauth, complete_rest, peek_csrf, take_verifier,
            clear_csrf, hv, hx]
    · rintro rfl
      rcases hx : exchange code v with e | td <;>
        simp [complete_oauth, complete_rest, peek_csrf, take_verifier,
          clear_csrf, hv, hx]

/-- C4 witness: with a verifier stored and no supplied state, the call does
not fail with the CSRF mismatch error and reaches the exchange step. -/
theorem C4_no_state_skips_check_witness :
    (complete_oauth OAuthProvider.Google "c" none (Except.ok ())
        (fun _ _ => Except.error "net")
        (start_oauth OAuthProvider.Google "v" "s" AppState.empty)).result
      ≠ Except.error OAuthErr.csrfMismatch ∧
    (Except.ok () = (Except.ok () : Except String Unit) →
      (complete_oauth OAuthProvider.Google "c" none (Except.ok ())
          (fun _ _ => Except.error "net")
          (start_oauth OAuthProvider.Google "v" "s" AppState.empty)).exchange_attempted
        = true) :=
  C4_no_state_skips_check OAuthProvider.Google "c" (Except.ok ())
    (fun _ _ => Except.error "net")
    (start_oauth OAuthProvider.Google "v" "s" AppState.empty) "v" rfl

/-- C10: when no state is stored for the provider, a supplied state is never
checked: the call never fails with the CSRF mismatch error; when in addition
the verifier slot is empty and the client constructs, it fails with the
missing session error. -/
theorem C10_no_stored_state (P : OAuthProvider) (code s2 : String)
    (newResult : Except String Unit)
    (exchange : String → String → Except String TokenData)
    (st : AppState)
    (hc : peek_csrf P st = none) :
    (complete_oauth P code (some s2) newResult exchange st).result
      ≠ Except.error OAuthErr.csrfMismatch ∧
    (peek_verifier P st = none → newResult = Except.ok () →
      (complete_oauth P code (some s2) newResult exchange st).result
        = Except.error (OAuthErr.missingVerifier P)) := by
  cases P <;> simp only [peek_csrf, peek_verifier] at hc ⊢
  · constructor
    · rcases newResult with ne | u
      · simp [complete_oauth, complete_rest, peek_csrf, hc]
      · rcases hmv : st.microsoft_pkce_verifier with _ | v
        · simp [complete_oauth, complete_rest, peek_csrf, take_verifier, hc, hmv]
        · rcases hx : exchange code v with e | td <;>
            simp [complete_oauth, complete_rest, peek_csrf, take_verifier,
              clear_csrf, hc, hmv, hx]
    · intro hmv hnr
      subst hnr
      simp [complete_oauth, complete_rest, peek_csrf, take_verifier, hc, hmv]
  · constructor
    · rcases newResult with ne | u
      · simp [complete_oauth, complete_rest, peek_csrf, hc]
      · rcases hmv : st.google_pkce_verifier with _ | v
        · simp [complete_oauth, complete_rest, peek_csrf, take_verifier, hc, hmv]
        · rcases hx : exchange code v with e | td <;>
            simp [complete_oauth, complete_rest, peek_csrf, take_verifier,
              clear_csrf, hc, hmv, hx]
    · intro hmv hnr
      subst hnr
      simp [complete_oauth, complete_rest, peek_csrf, take_verifier, hc, hmv]

/-- C10 witness: on the empty state with a supplied state value, the call
does not fail with the CSRF mismatch error and fails with the missing
session error for Microsoft. -/
theorem C10_no_stored_state_witness :
    (complete_oauth OAuthProvider.Microsoft "c" (some "s") (Except.ok ())
        (fun _ _ => Except.ok ⟨"at", none, 0, "", "Bearer"⟩)
        AppState.empty).result
      ≠ Except.error OAuthErr.csrfMismatch ∧
    (peek_verifier OAuthProvider.Microsoft AppState.empty = none →
      Except.ok () = (Except.ok () : Except String Unit) →
      (complete_oauth OAuthProvider.Microsoft "c" (some "s") (Except.ok ())
          (fun _ _ => Except.ok ⟨"at", none, 0, "", "Bearer"⟩)
          AppState.empty).result
        = Except.error (OAuthErr.missingVerifier OAuthProvider.Microsoft)) :=
  C10_no_stored_state OAuthProvider.Microsoft "c" "s" (Except.ok ())
    (fun _ _ => Except.ok ⟨"at", none, 0, "", "Bearer"⟩) AppState.empty rfl

/-- Helper: complete_rest never produces the CSRF mismatch error; that error
only arises from the early return inside the state check. -/
theorem complete_rest_not_mismatch (P : OAuthProvider) (code : String)
    (nr : Except String Unit)
    (exch : String → String → Except String TokenData) (st : AppState) :
    (complete_rest P code nr exch st).result
      ≠ Except.error OAuthErr.csrfMismatch := by
  cases P
  · rcases nr with ne | u
    · simp [complete_rest]
    · rcases hmv : st.microsoft_pkce_verifier with _ | v
      · simp [complete_rest, take_verifier, hmv]
      · rcases hx : exch code v with e | td <;>
          simp [complete_rest, take_verifier, clear_csrf, hmv, hx]
  · rcases nr with ne | u
    · simp [complete_rest]
    · rcases hmv : st.google_pkce_verifier with _ | v
      · simp [complete_rest, take_verifier, hmv]
      · rcases hx : exch code v with e | td <;>
          simp [complete_rest, take_verifier, clear_csrf, hmv, hx]

/-- Helper: every complete_oauth call either falls through to complete_rest
or is the early CSRF mismatch return, which leaves the state untouched and
happens exactly when both a received and a stored state exist and differ. -/
theorem complete_oauth_cases (P : OAuthProvider) (code : String)
    (received : Option String) (nr : Except String Unit)
    (exch : String → String → Except String TokenData) (st : AppState) :
    complete_oauth P code received nr exch st = complete_rest P code nr exch st ∨
    (complete_oauth P code received nr exch st
        = { result := Except.error OAuthErr.csrfMismatch, state := st,
            exchange_attempted := false } ∧
      ∃ r e, received = some r ∧ peek_csrf P st = some e ∧ r ≠ e) := by
  cases P
  · rcases received with _ | r
    · left
      simp [complete_oauth]
    · rcases hmc : st.microsoft_csrf_state with _ | e
      · left
        simp [complete_oauth, peek_csrf, hmc]
      · by_cases hre : r = e
        · left
          simp [complete_oauth, peek_csrf, hmc, hre]
        · right
          exact ⟨by simp [complete_oauth, peek_csrf, hmc, hre],
            r, e, rfl, by simp [peek_csrf, hmc], hre⟩
  · rcases received with _ | r
    · left
      simp [complete_oauth]
    · rcases hmc : st.google_csrf_state with _ | e
      · left
        simp [complete_oauth, peek_csrf, hmc]
      · by_cases hre : r = e
        · left
          simp [complete_oauth, peek_csrf, hmc, hre]
        · right
          exact ⟨by simp [complete_oauth, peek_csrf, hmc, hre],
            r, e, rfl, by simp [peek_csrf, hmc], hre⟩

/-- Helper: when complete_rest returns a token, the resulting state is the
one after taking the verifier and clearing the CSRF slot. -/
theorem complete_rest_ok_state (P : OAuthProvider) (code : String)
    (nr : Except String Unit)
    (exch : String → String → Except String TokenData) (st : AppState)
    (td : TokenData)
    (h : (complete_rest P code nr exch st).result = Except.ok td) :
    (complete_rest P code nr exch st).state
      = clear_csrf P (take_verifier P st).2 := by
  cases P
  · rcases nr with ne | u
    · simp [complete_rest] at h
    · rcases hmv : st.microsoft_pkce_verifier with _ | v
      · simp [complete_rest, take_verifier, hmv] at h
      · rcases hx : exch code v with e | td2
        · simp [complete_rest, take_verifier, hmv, hx] at h
        · simp [complete_rest, take_verifier, hmv, hx]
  · rcases nr with ne | u
    · simp [complete_rest] at h
    · rcases hmv : st.google_pkce_verifier with _ | v
      · simp [complete_rest, take_verifier, hmv] at h
      · rcases hx : exch code v with e | td2
        · simp [complete_rest, take_verifier, hmv, hx] at h
        · simp [complete_rest, take_verifier, hmv, hx]

/-- Helper: clearing the CSRF slot empties it. -/
theorem peek_csrf_clear (P : OAuthProvider) (st : AppState) :
    peek_csrf P (clear_csrf P st) = none := by
  cases P <;> rfl

/-- Helper: after taking the verifier and clearing the CSRF slot, the
verifier slot is empty. -/
theorem peek_verifier_after_take_clear (P : OAuthProvider) (st : AppState) :
    peek_verifier P (clear_csrf P (take_verifier P st).2) = none := by
  cases P <;> rfl

/-- Helper: a complete_oauth call that fails with the CSRF mismatch error
leaves the application state exactly as it was. -/
theorem complete_oauth_mismatch_state (P : OAuthProvider) (code : String)
    (received : Option String) (nr : Except String Unit)
    (exch : String → String → Except String TokenData) (st : AppState)
    (h : (complete_oauth P code received nr exch st).result
        = Except.error OAuthErr.csrfMismatch) :
    (complete_oauth P code received nr exch st).state = st := by
  rcases complete_oauth_cases P code received nr exch st with hcase | ⟨hcase, _⟩
  · rw [hcase] at h
    exact absurd h (complete_rest_not_mismatch P code nr exch st)
  · rw [hcase]

/-- Helper: with both slots of the provider empty, complete_oauth with a
constructing client fails with the missing session error. -/
theorem complete_oauth_missing (P : OAuthProvider) (code : String)
    (received : Option String)
    (exch : String → String → Except String TokenData) (st : AppState)
    (hc : peek_csrf P st = none) (hv : peek_verifier P st = none) :
    (complete_oauth P code received (Except.ok ()) exch st).result
      = Except.error (OAuthErr.missingVerifier P) := by
  cases P <;> simp only [peek_csrf, peek_verifier] at hc hv
  · rcases received with _ | r <;>
      simp [complete_oauth, complete_rest, peek_csrf, take_verifier, hc, hv]
  · rcases received with _ | r <;>
      simp [complete_oauth, complete_rest, peek_csrf, take_verifier, hc, hv]

/-- C2 counterexample: with state0 stored, a call supplying a different state
fails with the CSRF mismatch error and the stored state is NOT cleared, so
the claim that the state is cleared after the check on both success and
mismatch is false at this input. -/
theorem C2_counterexample :
    (complete_oauth OAuthProvider.Microsoft "code0" (some "other") (Except.ok ())
        (fun _ _ => Except.ok ⟨"at", none, 0, "", "Bearer"⟩)
        (start_oauth OAuthProvider.Microsoft "ver0" "state0" AppState.empty)).result
      = Except.error OAuthErr.csrfMismatch ∧
    peek_csrf OAuthProvider.Microsoft
      (complete_oauth OAuthProvider.Microsoft "code0" (some "other") (Except.ok ())
        (fun _ _ => Except.ok ⟨"at", none, 0, "", "Bearer"⟩)
        (start_oauth OAuthProvider.Microsoft "ver0" "state0" AppState.empty)).state
      = some "state0" :=
  ⟨rfl, rfl⟩

/-- C2 (amended): the stored state for the provider is cleared when the call
returns a token, that is when it proceeds all the way through a successful
exchange; a call that fails with the CSRF mismatch error leaves the whole
application state, the stored state included, unchanged. -/
theorem C2_clear_state (P : OAuthProvider) (code : String)
    (received_state : Option String) (newResult : Except String Unit)
    (exchange : String → String → Except String TokenData) (st : AppState) :
    (∀ td : TokenData,
      (complete_oauth P code received_state newResult exchange st).result
          = Except.ok td →
        peek_csrf P
          (complete_oauth P code received_state newResult exchange st).state
          = none) ∧
    ((complete_oauth P code received_state newResult exchange st).result
        = Except.error OAuthErr.csrfMismatch →
      (complete_oauth P code received_state newResult exchange st).state = st) := by
  constructor
  · intro td h
    rcases complete_oauth_cases P code received_state newResult exchange st with
      hcase | ⟨hcase, _⟩
    · rw [hcase] at h ⊢
      rw [complete_rest_ok_state P code newResult exchange st td h]
      exact peek_csrf_clear P _
    · rw [hcase] at h
      exact absurd h (by simp)
  · exact complete_oauth_mismatch_state P code received_state newResult exchange st

/-- C2 witness: a concrete successful call clears the stored state. -/
theorem C2_clear_state_witness :
    peek_csrf OAuthProvider.Microsoft
      (complete_oauth OAuthProvider.Microsoft "c" (some "s") (Except.ok ())
        (fun _ _ => Except.ok ⟨"at", none, 0, "", "Bearer"⟩)
        (start_oauth OAuthProvider.Microsoft "v" "s" AppState.empty)).state
      = none :=
  (C2_clear_state OAuthProvider.Microsoft "c" (some "s") (Except.ok ())
    (fun _ _ => Except.ok ⟨"at", none, 0, "", "Bearer"⟩)
    (start_oauth OAuthProvider.Microsoft "v" "s" AppState.empty)).1
    ⟨"at", none, 0, "", "Bearer"⟩ rfl

/-- C3 counterexample: after start and a first complete that fails with the
CSRF mismatch error, a second identical complete fails with the CSRF
mismatch error again, not with the missing session error, so the claim is
false at this input. -/
theorem C3_counterexample :
    (complete_oauth OAuthProvider.Microsoft "code0" (some "wrong") (Except.ok ())
        (fun _ _ => Except.error "net")
        (start_oauth OAuthProvider.Microsoft "ver0" "state0" AppState.empty)).result
      = Except.error OAuthErr.csrfMismatch ∧
    (complete_oauth OAuthProvider.Microsoft "code0" (some "wrong") (Except.ok ())
        (fun _ _ => Except.error "net")
        (complete_oauth OAuthProvider.Microsoft "code0" (some "wrong") (Except.ok ())
          (fun _ _ => Except.error "net")
          (start_oauth OAuthProvider.Microsoft "ver0" "state0" AppState.empty)).state).result
      = Except.error OAuthErr.csrfMismatch ∧
    (complete_oauth OAuthProvider.Microsoft "code0" (some "wrong") (Except.ok ())
        (fun _ _ => Except.error "net")
        (complete_oauth OAuthProvider.Microsoft "code0" (some "wrong") (Except.ok ())
          (fun _ _ => Except.error "net")
          (start_oauth OAuthProvider.Microsoft "ver0" "state0" AppState.empty)).state).result
      ≠ Except.error (OAuthErr.missingVerifier OAuthProvider.Microsoft) :=
  ⟨rfl, rfl, by
    change Except.error OAuthErr.csrfMismatch ≠ _
    simp⟩

/-- C3 (amended): after a complete call for provider P that succeeds, a
second complete against the resulting state, with a constructing client,
fails with the missing session error whatever code, state and exchange
outcome it is given; after a first call that fails with the CSRF mismatch
error the session is left intact, and a second call behaves exactly as a
first call would, rather than failing with the missing session error. -/
theorem C3_second_complete (P : OAuthProvider) (code code2 : String)
    (received received2 : Option String) (nr : Except String Unit)
    (exchange exchange2 : String → String → Except String TokenData)
    (st : AppState) :
    (∀ td : TokenData,
      (complete_oauth P code received nr exchange st).result = Except.ok td →
        (complete_oauth P code2 received2 (Except.ok ()) exchange2
          (complete_oauth P code received nr exchange st).state).result
          = Except.error (OAuthErr.missingVerifier P)) ∧
    ((complete_oauth P code received nr exchange st).result
        = Except.error OAuthErr.csrfMismatch →
      complete_oauth P code2 received2 (Except.ok ()) exchange2
          (complete_oauth P code received nr exchange st).state
        = complete_oauth P code2 received2 (Except.ok ()) exchange2 st) := by
  constructor
  · intro td h
    rcases complete_oauth_cases P code received nr exchange st with
      hcase | ⟨hcase, _⟩
    · rw [hcase] at h ⊢
      rw [complete_rest_ok_state P code nr exchange st td h]
      exact complete_oauth_missing P code2 received2 exchange2 _
        (peek_csrf_clear P _) (peek_verifier_after_take_clear P st)
    · rw [hcase] at h
      exact absurd h (by simp)
  · intro h
    rw [complete_oauth_mismatch_state P code received nr exchange st h]

/-- C3 witness: after a concrete successful complete, a second complete
fails with the missing session error. -/
theorem C3_second_complete_witness :
    (complete_oauth OAuthProvider.Microsoft "c2" (some "x") (Except.ok ())
        (fun _ _ => Except.ok ⟨"at", none, 0, "", "Bearer"⟩)
        (complete_oauth OAuthProvider.Microsoft "c" (some "s") (Except.ok ())
          (fun _ _ => Except.ok ⟨"at", none, 0, "", "Bearer"⟩)
          (start_oauth OAuthProvider.Microsoft "v" "s" AppState.empty)).state).result
      = Except.error (OAuthErr.missingVerifier OAuthProvider.Microsoft) :=
  (C3_second_complete OAuthProvider.Microsoft "c" "c2" (some "s") (some "x")
    (Except.ok ())
    (fun _ _ => Except.ok ⟨"at", none, 0, "", "Bearer"⟩)
    (fun _ _ => Except.ok ⟨"at", none, 0, "", "Bearer"⟩)
    (start_oauth OAuthProvider.Microsoft "v" "s" AppState.empty)).1
    ⟨"at", none, 0, "", "Bearer"⟩ rfl

/-- Helper: a segment of a list is a segment of any left extension of it. -/
theorem containsSeg_append_right (needle b a : List Char)
    (h : containsSeg needle b = true) :
    containsSeg needle (a ++ b) = true := by
  induction a with
  | nil => simpa using h
  | cons c t ih => simp [containsSeg, ih]

/-- C8: the Google authorization URL contains access_type=offline and
prompt=consent whatever base URL the oauth2 crate built, while the Microsoft
authorization URL is the crate base URL unchanged, hence contains neither
parameter whenever the crate base URL (whose form urlencoded query cannot
spell them) does not. -/
theorem C8_offline_params (base_g base_ms : String)
    (h1 : strContains base_ms "access_type=offline" = false)
    (h2 : strContains base_ms "prompt=consent" = false) :
    strContains (get_authorization_url OAuthProvider.Google base_g)
      "access_type=offline" = true ∧
    strContains (get_authorization_url OAuthProvider.Google base_g)
      "prompt=consent" = true ∧
    strContains (get_authorization_url OAuthProvider.Microsoft base_ms)
      "access_type=offline" = false ∧
    strContains (get_authorization_url OAuthProvider.Microsoft base_ms)
      "prompt=consent" = false := by
  have happ : (base_g ++ "&access_type=offline&prompt=consent").toList
      = base_g.toList ++ "&access_type=offline&prompt=consent".toList :=
    String.data_append base_g "&access_type=offline&prompt=consent"
  refine ⟨?_, ?_, h1, h2⟩
  · show containsSeg ("access_type=offline".toList)
      ((base_g ++ "&access_type=offline&prompt=consent").toList) = true
    rw [happ]
    exact containsSeg_append_right _ _ _ (by decide)
  · show containsSeg ("prompt=consent".toList)
      ((base_g ++ "&access_type=offline&prompt=consent").toList) = true
    rw [happ]
    exact containsSeg_append_right _ _ _ (by decide)

/-- C8 witness: at concrete crate built base URLs, the Google URL contains
both parameters and the Microsoft URL contains neither. -/
theorem C8_offline_params_witness :
    strContains
      (get_authorization_url OAuthProvider.Google
        "https://accounts.google.com/o/oauth2/v2/auth?response_type=code&client_id=cid&state=xyz&code_challenge=abc&code_challenge_method=S256&redirect_uri=ownyou%3A%2F%2Fcallback&scope=email")
      "access_type=offline" = true ∧
    strContains
      (get_authorization_url OAuthProvider.Google
        "https://accounts.google.com/o/oauth2/v2/auth?response_type=code&client_id=cid&state=xyz&code_challenge=abc&code_challenge_method=S256&redirect_uri=ownyou%3A%2F%2Fcallback&scope=email")
      "prompt=consent" = true ∧
    strContains
      (get_authorization_url OAuthProvider.Microsoft
        "https://login.microsoftonline.com/consumers/oauth2/v2.0/authorize?response_type=code&client_id=cid&state=xyz&code_challenge=abc&code_challenge_method=S256&redirect_uri=ownyou%3A%2F%2Fcallback&scope=User.Read")
      "access_type=offline" = false ∧
    strContains
      (get_authorization_url OAuthProvider.Microsoft
        "https://login.microsoftonline.com/consumers/oauth2/v2.0/authorize?response_type=code&client_id=cid&state=xyz&code_challenge=abc&code_challenge_method=S256&redirect_uri=ownyou%3A%2F%2Fcallback&scope=User.Read")
      "prompt=consent" = false :=
  C8_offline_params
    "https://accounts.google.com/o/oauth2/v2/auth?response_type=code&client_id=cid&state=xyz&code_challenge=abc&code_challenge_method=S256&redirect_uri=ownyou%3A%2F%2Fcallback&scope=email"
    "https://login.microsoftonline.com/consumers/oauth2/v2.0/authorize?response_type=code&client_id=cid&state=xyz&code_challenge=abc&code_challenge_method=S256&redirect_uri=ownyou%3A%2F%2Fcallback&scope=User.Read"
    (by decide) (by decide)

end OwnYou
